import Mathlib

/-!
# Verification of the YouTube Transcript Analyzer acquisition core

A shallow embedding, over `List Char` strings, of the transcript-acquisition
logic of `src/app.py`:

* the video-id extraction block (app.py lines 224-229) together with its
  surrounding `except IndexError` handler (lines 306-307);
* `download_audio` (lines 147-160), `transcribe_audio` (lines 162-168) and
  `get_transcript` (lines 170-215), with the external collaborators
  (caption-retrieval service, audio-download service, speech-to-text model,
  file system) modelled as an explicit oracle environment and the calls made
  to them recorded in an event trace;
* the `st.cache_data` memoization wrapper `get_cached_transcript`
  (lines 48-50) and the two button handlers that request transcripts
  (lines 266-276 and 295-304).

Python strings are modelled as `List Char`; `str.split`, substring tests
(`in`), `" ".join` and subscripting are given faithful executable models
(`pySplit`, `isInfixB`, `pyJoin`, `pyIndex`) below, and Python exceptions
become an explicit `PyErr` error type returned through `Except`.
-/

/-- Python strings, modelled as their character lists. -/
abbrev Str := List Char

/-- Errors raised by the modelled Python code: `IndexError` from an
out-of-range subscript, `ValueError(msg)` and a generic `Exception(msg)`. -/
inductive PyErr where
  | indexError
  | valueError (msg : Str)
  | exception (msg : Str)
deriving DecidableEq

/-- Python subscripting `l[n]` (for non-negative `n`): the element when in
range, and an `IndexError` otherwise. -/
def pyIndex {α : Type} (l : List α) (n : Nat) : Except PyErr α :=
  match l[n]? with
  | some x => Except.ok x
  | none => Except.error PyErr.indexError

/-- Python's substring test `sep in s` for strings: does `sep` occur
contiguously in `s`? -/
def isInfixB (sep : Str) : Str → Bool
  | [] => sep.isEmpty
  | c :: rest => sep.isPrefixOf (c :: rest) || isInfixB sep rest

/-- Fuel-indexed worker for `pySplit`; the fuel only serves to make the
recursion structural, and is irrelevant as soon as it bounds the string's
length (`pySplitF_fuel_irrel`). -/
def pySplitF (sep : Str) : Nat → Str → List Str
  | _, [] => [[]]
  | 0, s => [s]
  | fuel + 1, c :: rest =>
    if !sep.isEmpty && sep.isPrefixOf (c :: rest) then
      [] :: pySplitF sep fuel (rest.drop (sep.length - 1))
    else
      match pySplitF sep fuel rest with
      | [] => [[c]]
      | t :: ts => (c :: t) :: ts

/-- Python's `s.split(sep)` for a non-empty separator `sep`: scan left to
right, cutting at each (leftmost, non-overlapping) occurrence of `sep`. -/
def pySplit (sep s : Str) : List Str :=
  pySplitF sep s.length s

/-- Python's `sep.join(xs)`. -/
def pyJoin (sep : Str) : List Str → Str
  | [] => []
  | [x] => x
  | x :: y :: t => x ++ sep ++ pyJoin sep (y :: t)

/-- `cleanBeforeB sep a` holds when no occurrence of `sep` begins inside `a`
when `a` is immediately followed by `sep`; it makes the first cut of
`pySplit sep (a ++ sep ++ b)` land exactly after `a`. -/
def cleanBeforeB (sep : Str) : Str → Bool
  | [] => true
  | c :: rest => !sep.isPrefixOf ((c :: rest) ++ sep) && cleanBeforeB sep rest

theorem isPrefixOf_append_self (l t : Str) : l.isPrefixOf (l ++ t) = true := by
  induction l with
  | nil => simp
  | cons c cs ih => simp [List.isPrefixOf_cons₂, ih]

theorem isPrefixOf_append_of_le (sep : Str) :
    ∀ u v : Str, sep.length ≤ u.length →
      sep.isPrefixOf (u ++ v) = sep.isPrefixOf u := by
  induction sep with
  | nil => intro u v _; simp
  | cons a as ih =>
    intro u v h
    cases u with
    | nil => exact absurd h (by simp)
    | cons b bs =>
      simp only [List.cons_append, List.isPrefixOf_cons₂]
      rw [ih bs v (by simpa using h)]

theorem pySplitF_cons_pos (sep : Str) (f : Nat) (c : Char) (r : Str)
    (h : (!sep.isEmpty && sep.isPrefixOf (c :: r)) = true) :
    pySplitF sep (f + 1) (c :: r) =
      [] :: pySplitF sep f (r.drop (sep.length - 1)) := by
  simp [pySplitF, h]

theorem pySplitF_cons_neg (sep : Str) (f : Nat) (c : Char) (r : Str)
    (h : (!sep.isEmpty && sep.isPrefixOf (c :: r)) = false) :
    pySplitF sep (f + 1) (c :: r) =
      match pySplitF sep f r with
      | [] => [[c]]
      | t :: ts => (c :: t) :: ts := by
  simp [pySplitF, h]

theorem pySplitF_fuel_irrel (sep : Str) :
    ∀ f g s, s.length ≤ f → s.length ≤ g → pySplitF sep f s = pySplitF sep g s := by
  intro f
  induction f with
  | zero =>
    intro g s hf _
    cases s with
    | nil => cases g <;> rfl
    | cons c r => simp at hf
  | succ f ih =>
    intro g s hf hg
    cases s with
    | nil => cases g <;> rfl
    | cons c r =>
      cases g with
      | zero => simp at hg
      | succ g =>
        have hf' : r.length ≤ f := by simp at hf; omega
        have hg' : r.length ≤ g := by simp at hg; omega
        have hd : (r.drop (sep.length - 1)).length ≤ f := by
          simp only [List.length_drop]; omega
        have hd' : (r.drop (sep.length - 1)).length ≤ g := by
          simp only [List.length_drop]; omega
        cases hcut : (!sep.isEmpty && sep.isPrefixOf (c :: r)) with
        | true =>
          rw [pySplitF_cons_pos sep f c r hcut, pySplitF_cons_pos sep g c r hcut,
            ih g _ hd hd']
        | false =>
          rw [pySplitF_cons_neg sep f c r hcut, pySplitF_cons_neg sep g c r hcut,
            ih g r hf' hg']

theorem pySplitF_of_not_infix (sep : Str) :
    ∀ f s, s.length ≤ f → isInfixB sep s = false → pySplitF sep f s = [s] := by
  intro f
  induction f with
  | zero =>
    intro s hf _
    cases s with
    | nil => rfl
    | cons c r => simp at hf
  | succ f ih =>
    intro s hf hni
    cases s with
    | nil => rfl
    | cons c r =>
      simp only [isInfixB, Bool.or_eq_false_iff] at hni
      rw [pySplitF_cons_neg sep f c r (by simp [hni.1]),
        ih r (by simp at hf; omega) hni.2]

/-- If `sep` does not occur in `s`, Python's split returns the single chunk
`[s]`. -/
theorem pySplit_of_not_infix (sep s : Str) (h : isInfixB sep s = false) :
    pySplit sep s = [s] :=
  pySplitF_of_not_infix sep s.length s le_rfl h

theorem pySplitF_append (sep : Str) (hsep : sep ≠ []) :
    ∀ (a : Str) (f : Nat) (b : Str), (a ++ sep ++ b).length ≤ f →
      cleanBeforeB sep a = true →
      pySplitF sep f (a ++ sep ++ b) =
        a :: pySplitF sep (f - (a.length + sep.length)) b := by
  intro a
  induction a with
  | nil =>
    intro f b hf _
    cases sep with
    | nil => exact absurd rfl hsep
    | cons d s =>
      cases f with
      | zero => simp at hf
      | succ f =>
        have hshape : ([] : Str) ++ (d :: s) ++ b = d :: (s ++ b) := by simp
        rw [hshape, pySplitF_cons_pos (d :: s) f d (s ++ b)
          (by have h := isPrefixOf_append_self (d :: s) b
              simp only [List.cons_append] at h
              simp [h])]
        have hdrop : (s ++ b).drop ((d :: s).length - 1) = b := by
          simp only [List.length_cons, Nat.add_sub_cancel]
          exact List.drop_left s b
        rw [hdrop]
        rw [hshape] at hf
        simp only [List.length_cons, List.length_append] at hf
        rw [pySplitF_fuel_irrel (d :: s) f
          (f + 1 - (([] : Str).length + (d :: s).length)) b (by omega)
          (by simp only [List.length_nil, List.length_cons]; omega)]
  | cons c a ih =>
    intro f b hf hcl
    cases f with
    | zero => simp at hf
    | succ f =>
      simp only [cleanBeforeB, Bool.and_eq_true, Bool.not_eq_true'] at hcl
      have hshape : (c :: a) ++ sep ++ b = c :: (a ++ sep ++ b) := by simp
      have hpre : sep.isPrefixOf (c :: (a ++ sep ++ b)) = false := by
        have h1 : c :: (a ++ sep ++ b) = ((c :: a) ++ sep) ++ b := by simp
        rw [h1, isPrefixOf_append_of_le sep ((c :: a) ++ sep) b (by simp; omega)]
        exact hcl.1
      rw [hshape, pySplitF_cons_neg sep f c (a ++ sep ++ b)
        (by rw [hpre, Bool.and_false])]
      have hlen : (a ++ sep ++ b).length ≤ f := by
        rw [hshape] at hf
        simp only [List.length_cons] at hf
        omega
      rw [ih f b hlen hcl.2]
      have hfuel : f - (a.length + sep.length) =
          f + 1 - ((c :: a).length + sep.length) := by
        simp only [List.length_cons]
        omega
      rw [hfuel]

/-- Splitting `a ++ sep ++ b` on `sep`, when no occurrence of `sep` begins
inside `a`, yields `a` as the first chunk followed by the split of `b`. -/
theorem pySplit_append (sep : Str) (hsep : sep ≠ []) (a b : Str)
    (hcl : cleanBeforeB sep a = true) :
    pySplit sep (a ++ sep ++ b) = a :: pySplit sep b := by
  unfold pySplit
  rw [pySplitF_append sep hsep a (a ++ sep ++ b).length b le_rfl hcl]
  have hfuel : (a ++ sep ++ b).length - (a.length + sep.length) = b.length := by
    simp only [List.length_append]
    omega
  rw [hfuel]

/-- A string of the shape `a ++ sep ++ b` contains `sep`. -/
theorem isInfixB_append (sep a b : Str) : isInfixB sep (a ++ sep ++ b) = true := by
  induction a with
  | nil =>
    cases sep with
    | nil =>
      cases b with
      | nil => rfl
      | cons c r => simp [isInfixB]
    | cons d s =>
      have hshape : ([] : Str) ++ (d :: s) ++ b = d :: (s ++ b) := by simp
      rw [hshape]
      have h : (d :: s).isPrefixOf (d :: (s ++ b)) = true := by
        have h2 := isPrefixOf_append_self (d :: s) b
        simp only [List.cons_append] at h2
        exact h2
      simp only [isInfixB, h, Bool.true_or]
  | cons c a ih =>
    have hshape : (c :: a) ++ sep ++ b = c :: (a ++ sep ++ b) := by simp
    rw [hshape]
    simp only [isInfixB, ih, Bool.or_true]

/-- A caption track descriptor as reported by the caption-retrieval service:
its declared language code, whether it is auto-generated (as opposed to
manually created), and the text fields of the segments its `fetch()` returns. -/
structure Track where
  language_code : Str
  is_generated : Bool
  segments : List Str
deriving DecidableEq

/-- The dictionary returned by `get_transcript` on success
(app.py lines 200-203 and 208-211). -/
structure TResult where
  text : Str
  original_language : Str
deriving DecidableEq

/-- Calls made to the backing services and to the file system, recorded as an
event trace so that theorems can speak about which collaborators were
invoked. -/
inductive Ev where
  | listTranscripts (video_id : Str)
  | translateEv (fromLang toLang : Str)
  | downloadAudioEv (url : Str)
  | transcribeEv (path : Str)
  | removeEv (path : Str)
  | rmdirEv (path : Str)
deriving DecidableEq

/-- The oracle environment for one call: the black-box behaviour of the
caption-retrieval service (`YouTubeTranscriptApi`), the translation service,
the audio downloader (`pytube`), `tempfile.mkdtemp`, the Whisper model, and
the file-system removal calls. -/
structure Env where
  /-- the tracks reported by `list_transcripts` -/
  tracks : List Track
  /-- `list_transcripts` itself raises (transport error) -/
  listFails : Bool
  /-- message of the `list_transcripts` error when `listFails` -/
  listErrMsg : Str
  /-- `transcript.translate(target)`: the translated track -/
  translateFn : Track → Str → Track
  /-- the pytube download succeeds -/
  downloadOk : Bool
  /-- message of the download error when `downloadOk = false` -/
  downloadErrMsg : Str
  /-- the directory created by `tempfile.mkdtemp()` -/
  tempDir : Str
  /-- `whisper_model.transcribe`: transcribed text, or an error message -/
  transcribeRes : Except Str Str
  /-- `os.remove` / `os.rmdir` raise -/
  removeFails : Bool

deriving instance DecidableEq for Except

/-- Result of a call to the transcript resolver: the returned value or raised
error, the calls made to backing services, and the temporary files still
present on disk afterwards. -/
structure Outcome where
  result : Except PyErr TResult
  trace : List Ev
  fs : List Str
deriving DecidableEq

/-- The fixed language-priority list passed to both caption lookups
(app.py lines 177 and 182). -/
def supportedLangs : List Str :=
  ["en".data, "hi".data, "mr".data, "es".data, "fr".data, "de".data,
   "ja".data, "ko".data, "ru".data]

/-- `find_manually_created_transcript` / `find_generated_transcript` of
`youtube_transcript_api`: walk the language-priority list and return the
first track of the requested kind declared in that language; `none` models
the `NoTranscriptFound` exception. -/
def find_transcript (tracks : List Track) (generated : Bool) :
    List Str → Option Track
  | [] => none
  | l :: ls =>
    match tracks.find? (fun t => t.is_generated == generated
        && t.language_code == l) with
    | some t => some t
    | none => find_transcript tracks generated ls

/-- `download_audio` (app.py lines 147-160): on success, `mkdtemp` creates
`env.tempDir`, the audio stream is saved as `audio.mp4` inside it and its
path returned; any failure is re-raised as
`Exception("Error downloading audio: ...")` (modelled at the `YouTube(url)`
call, before the temporary directory is created). -/
def download_audio (env : Env) (url : Str) :
    Except PyErr Str × List Ev × List Str :=
  if env.downloadOk then
    ( Except.ok (env.tempDir ++ "/audio.mp4".data),
      [Ev.downloadAudioEv url],
      [env.tempDir, env.tempDir ++ "/audio.mp4".data] )
  else
    ( Except.error (PyErr.exception ("Error downloading audio: ".data
        ++ env.downloadErrMsg)),
      [Ev.downloadAudioEv url],
      [] )

/-- `transcribe_audio` (app.py lines 162-168): Whisper transcription, with
failures re-raised as `Exception("Error transcribing audio: ...")`. -/
def transcribe_audio (env : Env) (path : Str) : Except PyErr Str × List Ev :=
  match env.transcribeRes with
  | Except.ok t => (Except.ok t, [Ev.transcribeEv path])
  | Except.error m =>
      ( Except.error (PyErr.exception ("Error transcribing audio: ".data ++ m)),
        [Ev.transcribeEv path] )

/-- The shared tail of the caption path (app.py lines 178, 183 and 205-211):
remember the track's declared language as `original_lang`, translate when the
target differs, then join the fetched segment texts with single spaces. -/
def resolveCaption (env : Env) (target_lang : Str) (t : Track) :
    Except PyErr TResult × List Ev :=
  let original_lang := t.language_code
  let tev :=
    if target_lang ≠ original_lang then
      (env.translateFn t target_lang, [Ev.translateEv original_lang target_lang])
    else (t, ([] : List Ev))
  ( Except.ok ⟨pyJoin " ".data tev.1.segments, original_lang⟩, tev.2 )

/-- `get_transcript` (app.py lines 170-215): re-derive a video id with
`url.split("v=")[1]`, list the caption tracks, try a manual track then an
auto-generated track over the fixed language list, and otherwise fall back to
downloading the audio and transcribing it, removing the temporary file and
directory afterwards with failures of the removal swallowed (lines 193-198).
Errors escape to the caller (the final `except` re-raises). -/
def get_transcript (env : Env) (url target_lang : Str) : Outcome :=
  match pyIndex (pySplit "v=".data url) 1 with
  | Except.error e => ⟨Except.error e, [], []⟩
  | Except.ok video_id =>
    if env.listFails then
      ⟨Except.error (PyErr.exception env.listErrMsg),
        [Ev.listTranscripts video_id], []⟩
    else
      let ev0 := [Ev.listTranscripts video_id]
      match find_transcript env.tracks false supportedLangs with
      | some t =>
        let re := resolveCaption env target_lang t
        ⟨re.1, ev0 ++ re.2, []⟩
      | none =>
        match find_transcript env.tracks true supportedLangs with
        | some t =>
          let re := resolveCaption env target_lang t
          ⟨re.1, ev0 ++ re.2, []⟩
        | none =>
          match download_audio env url with
          | (Except.error e, ev1, fs1) => ⟨Except.error e, ev0 ++ ev1, fs1⟩
          | (Except.ok audio_path, ev1, fs1) =>
            match transcribe_audio env audio_path with
            | (Except.error e, ev2) =>
                ⟨Except.error e, ev0 ++ ev1 ++ ev2, fs1⟩
            | (Except.ok transcribed_text, ev2) =>
                ⟨Except.ok ⟨transcribed_text, "auto-detected".data⟩,
                  ev0 ++ ev1 ++ ev2 ++
                    (if env.removeFails then []
                     else [Ev.removeEv audio_path, Ev.rmdirEv env.tempDir]),
                  if env.removeFails then fs1
                  else fs1.filter
                    (fun p => !(p == audio_path || p == env.tempDir))⟩

/-- The video-id extraction block (app.py lines 224-229): branch on the two
domain markers, cut out the id with unguarded splits, or raise
`ValueError("Invalid YouTube URL format")`. -/
def extract_video_id (url : Str) : Except PyErr Str :=
  if isInfixB "youtu.be".data url then
    match pyIndex (pySplit "youtu.be/".data url) 1 with
    | Except.error e => Except.error e
    | Except.ok s => pyIndex (pySplit "?".data s) 0
  else if isInfixB "youtube.com".data url then
    match pyIndex (pySplit "v=".data url) 1 with
    | Except.error e => Except.error e
    | Except.ok s => pyIndex (pySplit "&".data s) 0
  else
    Except.error (PyErr.valueError "Invalid YouTube URL format".data)

/-- The user-facing outcome of the extraction block under its surrounding
handlers (app.py lines 306-309): an `IndexError` is caught by the dedicated
handler and shown as the invalid-URL banner; any other exception is shown by
the generic handler with its message. -/
def handled_extract (url : Str) : Except Str Str :=
  match extract_video_id url with
  | Except.ok v => Except.ok v
  | Except.error PyErr.indexError =>
      Except.error "Invalid YouTube URL. Please enter a valid YouTube video URL.".data
  | Except.error (PyErr.valueError m) =>
      Except.error ("An unexpected error occurred: ".data ++ m)
  | Except.error (PyErr.exception m) =>
      Except.error ("An unexpected error occurred: ".data ++ m)

/-- Modelled from the spec: the time-bounded memoization that the UI
framework's `st.cache_data(ttl=3600)` annotation provides for
`get_cached_transcript` (app.py lines 48-50) is not code of this repository;
following the spec it is modelled as a key-value store over
(URL, target language) whose entries are the ones still inside the expiry
window. Successful results are stored; exceptions are not cached. -/
structure Cache where
  entries : List ((Str × Str) × TResult)
deriving DecidableEq

/-- Look up a (URL, language) key in the memoization window. -/
def cacheLookup (c : Cache) (k : Str × Str) : Option TResult :=
  (c.entries.find? (fun e => decide (e.1 = k))).map (fun e => e.2)

/-- `get_cached_transcript` (app.py lines 48-50) under the modelled
memoization: a hit returns the stored result with no backing-service call; a
miss delegates to `get_transcript` and stores a successful result. -/
def get_cached_transcript (env : Env) (c : Cache) (url target_lang : Str) :
    Except PyErr TResult × List Ev × Cache :=
  match cacheLookup c (url, target_lang) with
  | some v => (Except.ok v, [], c)
  | none =>
    let o := get_transcript env url target_lang
    match o.result with
    | Except.ok v => (Except.ok v, o.trace, ⟨((url, target_lang), v) :: c.entries⟩)
    | Except.error e => (Except.error e, o.trace, c)

/-- The transcript fetch performed by the Generate Summary handler
(app.py line 270): the language argument is the literal `'en'`, the
selector's value is ignored. -/
def summary_button_fetch (env : Env) (c : Cache) (url selected_language : Str) :
    Except PyErr TResult × List Ev × Cache :=
  get_cached_transcript env c url "en".data

/-- The transcript fetch performed by the Get Transcript handler
(app.py line 299): the language argument is the selector's value. -/
def transcript_button_fetch (env : Env) (c : Cache)
    (url selected_language : Str) : Except PyErr TResult × List Ev × Cache :=
  get_cached_transcript env c url selected_language

-- sanity checks of the Python-string model
example : pySplit "v=".data "a?v=xy&b".data = ["a?".data, "xy&b".data] := by decide
example : pySplit "v=".data "abc".data = ["abc".data] := by decide
example : pySplit "a".data "a".data = [[], []] := by decide
example : pyJoin " ".data ["Hello".data, "world".data] = "Hello world".data := by decide
example : isInfixB "youtu.be".data "https://youtu.be/x".data = true := by decide
example : isInfixB "youtu.be".data "https://youtube.com/watch".data = false := by decide
example : cleanBeforeB "v=".data "https://www.youtube.com/watch?".data = true := by decide

-- sanity checks of the resolver embedding
example :
    (get_transcript
      ⟨[⟨"en".data, false, ["Hello".data, "world".data]⟩], false, [],
        fun t _ => t, true, [], "/tmp/d".data, Except.ok "stt".data, false⟩
      "https://www.youtube.com/watch?v=abc".data "en".data).result
    = Except.ok ⟨"Hello world".data, "en".data⟩ := by decide
example :
    extract_video_id "https://www.youtube.com/watch?v=abc&t=1".data
    = Except.ok "abc".data := by decide

/-- Does an event denote a call to the audio-download service or the
speech-to-text model? -/
def usesAudioService : Ev → Bool
  | Ev.downloadAudioEv _ => true
  | Ev.transcribeEv _ => true
  | _ => false

/-- A trace with no call to the audio-download service nor to the
speech-to-text model. -/
def noAudioB (tr : List Ev) : Bool := tr.all (fun e => !usesAudioService e)

/-- A track returned by the caption lookup is one of the service's tracks. -/
theorem find_transcript_mem (tracks : List Track) (generated : Bool) :
    ∀ ls t, find_transcript tracks generated ls = some t → t ∈ tracks := by
  intro ls
  induction ls with
  | nil => intro t h; exact absurd h (by simp [find_transcript])
  | cons l ls ih =>
    intro t h
    cases hfind : tracks.find? (fun tk => tk.is_generated == generated
        && tk.language_code == l) with
    | some t2 =>
      simp only [find_transcript, hfind] at h
      cases h
      exact List.mem_of_find?_eq_some hfind
    | none =>
      simp only [find_transcript, hfind] at h
      exact ih t h

/-! ## Claim C1

The spec's end-to-end example: for the short-form URL
`https://youtu.be/abc123?t=5` the extractor yields `abc123`, and the
resolver, called with that URL and target language `en` against a caption
service holding one manual English track with segments `["Hello", "world"]`,
is claimed to return `{text: "Hello world", original_language: "en"}`.
The extractor half holds, but `get_transcript` re-derives a video id with
`url.split("v=")[1]` (app.py line 172), and a short-form URL contains no
`"v="`, so the subscript `[1]` raises `IndexError` instead: the code
contradicts the documented intent. -/

/-- The caption service of the C1 example: one manually-created English
track whose fetched segments are `["Hello", "world"]`. -/
def c1Env : Env :=
  ⟨[⟨"en".data, false, ["Hello".data, "world".data]⟩], false, [],
    fun t _ => t, true, [], "/tmp/c1".data, Except.ok "stt output".data, false⟩

/-- **C1** (code bug): on input URL `https://youtu.be/abc123?t=5` the
extraction block yields `abc123`, but `get_transcript` called with that URL
and target language `en` raises `IndexError` at `url.split("v=")[1]` instead
of returning `{text: "Hello world", original_language: "en"}` as the claim
states. -/
theorem c1_short_url_extractor_ok_but_resolver_raises :
    extract_video_id "https://youtu.be/abc123?t=5".data
      = Except.ok "abc123".data ∧
    (get_transcript c1Env "https://youtu.be/abc123?t=5".data "en".data).result
      = Except.error PyErr.indexError := by
  exact ⟨by decide, by decide⟩

/-! ## Claim C2

The claimed guarantee is that the temporary audio file and directory are
removed after the transcription call on every outcome, including when
transcription raises. The code (app.py lines 190-198) runs the cleanup block
only on the straight-line path after a successful `transcribe_audio` call —
there is no `finally` — so when transcription raises, `os.remove` is never
reached and the temporary file stays on disk, contradicting the spec's
"regardless of success or failure" requirement (the swallowing of removal
errors, by contrast, is implemented as claimed). -/

/-- Environment for the C2 failing input: no caption tracks at all, the
audio download succeeds into `/tmp/c2`, and Whisper transcription raises
with message `model failure`. -/
def c2Env : Env :=
  ⟨[], false, [], fun t _ => t, true, [], "/tmp/c2".data,
    Except.error "model failure".data, false⟩

/-- The URL of the C2 failing input (long form, so that the resolver's own
id extraction succeeds and the fallback path is reached). -/
def c2Url : Str := "https://www.youtube.com/watch?v=abc".data

/-- **C2** (code bug): on the audio-fallback path with a failing
transcription, the resolver re-raises the wrapped transcription error, the
audio-download and transcription services were each called exactly once, and
the temporary audio file `/tmp/c2/audio.mp4` is still present afterwards —
the claimed removal-on-every-outcome does not happen on the raising path. -/
theorem c2_cleanup_skipped_when_transcription_raises :
    (get_transcript c2Env c2Url "en".data).result
      = Except.error (PyErr.exception "Error transcribing audio: model failure".data) ∧
    ("/tmp/c2/audio.mp4".data ∈ (get_transcript c2Env c2Url "en".data).fs ∧
      "/tmp/c2".data ∈ (get_transcript c2Env c2Url "en".data).fs) ∧
    ((get_transcript c2Env c2Url "en".data).trace.count
        (Ev.downloadAudioEv c2Url) = 1 ∧
      (get_transcript c2Env c2Url "en".data).trace.count
        (Ev.transcribeEv "/tmp/c2/audio.mp4".data) = 1) := by
  exact ⟨by decide, ⟨by decide, by decide⟩, ⟨by decide, by decide⟩⟩

/-! ## Claim C3

The resolver's fallback chain (app.py lines 175-203): manual captions
first, then auto-generated captions, then the audio download plus
speech-to-text; the first source that succeeds determines the result, and
whenever a caption track is found the audio-download service is never
called. -/

/-- **C3** (confirmed): under a successful id split and a reachable caption
service, (i) a manual track, when found, determines the result (its fetched
segments, translated when the target language differs, joined with spaces;
`original_language` is its declared code) and no audio-service call is made;
(ii) with no manual track, a found auto-generated track does the same;
(iii) with neither kind of track, the audio-download service is called. -/
theorem c3_strict_source_order (env : Env) (url target_lang vid : Str)
    (hv : pyIndex (pySplit "v=".data url) 1 = Except.ok vid)
    (hl : env.listFails = false) :
    (∀ t, find_transcript env.tracks false supportedLangs = some t →
      noAudioB (get_transcript env url target_lang).trace = true ∧
      (get_transcript env url target_lang).result =
        Except.ok ⟨pyJoin " ".data
          (if target_lang ≠ t.language_code
            then (env.translateFn t target_lang).segments
            else t.segments), t.language_code⟩) ∧
    (find_transcript env.tracks false supportedLangs = none →
      ∀ t, find_transcript env.tracks true supportedLangs = some t →
        noAudioB (get_transcript env url target_lang).trace = true ∧
        (get_transcript env url target_lang).result =
          Except.ok ⟨pyJoin " ".data
            (if target_lang ≠ t.language_code
              then (env.translateFn t target_lang).segments
              else t.segments), t.language_code⟩) ∧
    (find_transcript env.tracks false supportedLangs = none →
      find_transcript env.tracks true supportedLangs = none →
        Ev.downloadAudioEv url ∈ (get_transcript env url target_lang).trace) := by
  refine ⟨?_, ?_, ?_⟩
  · intro t hm
    by_cases h : target_lang = t.language_code
    · simp [get_transcript, hv, hl, hm, resolveCaption, noAudioB,
        usesAudioService, h]
    · simp [get_transcript, hv, hl, hm, resolveCaption, noAudioB,
        usesAudioService, h]
  · intro hm t hg
    by_cases h : target_lang = t.language_code
    · simp [get_transcript, hv, hl, hm, hg, resolveCaption, noAudioB,
        usesAudioService, h]
    · simp [get_transcript, hv, hl, hm, hg, resolveCaption, noAudioB,
        usesAudioService, h]
  · intro hm hg
    cases hd : env.downloadOk with
    | true =>
      cases ht : env.transcribeRes with
      | ok s =>
        simp [get_transcript, hv, hl, hm, hg, download_audio, hd,
          transcribe_audio, ht]
      | error m =>
        simp [get_transcript, hv, hl, hm, hg, download_audio, hd,
          transcribe_audio, ht]
    | false =>
      simp [get_transcript, hv, hl, hm, hg, download_audio, hd]

/-- The caption service of the C3 witness: one manual English track with
segments `["Hello", "world"]`. -/
def c3Env : Env :=
  ⟨[⟨"en".data, false, ["Hello".data, "world".data]⟩], false, [],
    fun t _ => t, true, [], "/tmp/c3".data, Except.ok "stt".data, false⟩

/-- Witness for C3 at a concrete input: the manual English track determines
the result `{text: "Hello world", original_language: "en"}` and no
audio-service call appears in the trace. -/
theorem c3_witness :
    noAudioB (get_transcript c3Env
      "https://www.youtube.com/watch?v=abc".data "en".data).trace = true ∧
    (get_transcript c3Env
      "https://www.youtube.com/watch?v=abc".data "en".data).result
      = Except.ok ⟨"Hello world".data, "en".data⟩ := by
  have h := (c3_strict_source_order c3Env
      "https://www.youtube.com/watch?v=abc".data "en".data "abc".data
      (by decide) (by decide)).1
      ⟨"en".data, false, ["Hello".data, "world".data]⟩ (by decide)
  exact ⟨h.1, h.2.trans (by decide)⟩

/-! ## Claim C4

When a caption track was found by steps 1-2 but its declared language
differs from the requested target, the code translates the track before
fetching (app.py lines 205-206), while `original_lang` was captured before
the translation (lines 178 and 183), so the returned `original_language` is
the pre-translation code. -/

/-- **C4** (confirmed): for a track found by the manual lookup, or by the
generated lookup after the manual one found nothing, whose declared language
differs from the target, the resolver calls the translation service on that
track, the returned text is the space-join of the translated track's
segments, and `original_language` is the track's pre-translation language
code. -/
theorem c4_translate_before_extract (env : Env) (url target_lang vid : Str)
    (t : Track)
    (hv : pyIndex (pySplit "v=".data url) 1 = Except.ok vid)
    (hl : env.listFails = false)
    (ht : find_transcript env.tracks false supportedLangs = some t ∨
      (find_transcript env.tracks false supportedLangs = none ∧
       find_transcript env.tracks true supportedLangs = some t))
    (hne : target_lang ≠ t.language_code) :
    Ev.translateEv t.language_code target_lang
      ∈ (get_transcript env url target_lang).trace ∧
    (get_transcript env url target_lang).result =
      Except.ok ⟨pyJoin " ".data (env.translateFn t target_lang).segments,
        t.language_code⟩ := by
  rcases ht with hm | ⟨hm, hg⟩
  · constructor
    · simp [get_transcript, hv, hl, hm, resolveCaption, hne]
    · simp [get_transcript, hv, hl, hm, resolveCaption, hne]
  · constructor
    · simp [get_transcript, hv, hl, hm, hg, resolveCaption, hne]
    · simp [get_transcript, hv, hl, hm, hg, resolveCaption, hne]

/-- The caption service of the C4 witness: only an auto-generated Hindi
track; its translation to any requested language has one segment `Hello`. -/
def c4Env : Env :=
  ⟨[⟨"hi".data, true, ["namaste".data]⟩], false, [],
    fun _ l => ⟨l, true, ["Hello".data]⟩, true, [],
    "/tmp/c4".data, Except.ok "stt".data, false⟩

/-- Witness for C4 at a concrete input: with only a generated `hi` track
and target `en`, the translation service is called and the result pairs the
translated text with original language `hi`. -/
theorem c4_witness :
    Ev.translateEv "hi".data "en".data
      ∈ (get_transcript c4Env
        "https://www.youtube.com/watch?v=abc".data "en".data).trace ∧
    (get_transcript c4Env
      "https://www.youtube.com/watch?v=abc".data "en".data).result
      = Except.ok ⟨"Hello".data, "hi".data⟩ := by
  have h := c4_translate_before_extract c4Env
    "https://www.youtube.com/watch?v=abc".data "en".data "abc".data
    ⟨"hi".data, true, ["namaste".data]⟩
    (by decide) (by decide) (Or.inr ⟨by decide, by decide⟩) (by decide)
  exact ⟨h.1, h.2.trans (by decide)⟩

/-! ## Claim C10

On the audio-fallback path nothing consults the requested target language:
the caption lookups use a fixed language list (app.py lines 177 and 182),
and the fallback body (lines 186-203) never mentions `target_lang`; its
successful result is the untranslated Whisper output paired with the literal
sentinel `'auto-detected'`. -/

/-- **C10** (confirmed): with no caption track of either kind, the entire
outcome of the resolver (result, trace and file-system effect) is the same
for any two target languages, and any successful result carries
`original_language = 'auto-detected'` and the untranslated speech-to-text
output as its text. -/
theorem c10_audio_fallback_language_blind (env : Env) (url l1 l2 : Str)
    (hm : find_transcript env.tracks false supportedLangs = none)
    (hg : find_transcript env.tracks true supportedLangs = none) :
    get_transcript env url l1 = get_transcript env url l2 ∧
    (∀ r, (get_transcript env url l1).result = Except.ok r →
      r.original_language = "auto-detected".data ∧
      env.transcribeRes = Except.ok r.text) := by
  cases hv : pyIndex (pySplit "v=".data url) 1 with
  | error e =>
    constructor
    · simp [get_transcript, hv]
    · intro r hr
      simp [get_transcript, hv] at hr
  | ok vid =>
    cases hl : env.listFails with
    | true =>
      constructor
      · simp [get_transcript, hv, hl]
      · intro r hr
        simp [get_transcript, hv, hl] at hr
    | false =>
      cases hd : env.downloadOk with
      | false =>
        constructor
        · simp [get_transcript, hv, hl, hm, hg, download_audio, hd]
        · intro r hr
          simp [get_transcript, hv, hl, hm, hg, download_audio, hd] at hr
      | true =>
        cases ht : env.transcribeRes with
        | error m =>
          constructor
          · simp [get_transcript, hv, hl, hm, hg, download_audio, hd,
              transcribe_audio, ht]
          · intro r hr
            simp [get_transcript, hv, hl, hm, hg, download_audio, hd,
              transcribe_audio, ht] at hr
        | ok s =>
          constructor
          · simp [get_transcript, hv, hl, hm, hg, download_audio, hd,
              transcribe_audio, ht]
          · intro r hr
            simp [get_transcript, hv, hl, hm, hg, download_audio, hd,
              transcribe_audio, ht] at hr
            rw [← hr]
            exact ⟨rfl, rfl⟩

/-- Environment for the C10 witness: no caption tracks; Whisper returns
`hello there`. -/
def c10Env : Env :=
  ⟨[], false, [], fun t _ => t, true, [], "/tmp/c10".data,
    Except.ok "hello there".data, false⟩

/-- Witness for C10 at a concrete input: target languages `en` and `hi`
produce identical outcomes, and the result is the sentinel-tagged Whisper
output. -/
theorem c10_witness :
    get_transcript c10Env "https://www.youtube.com/watch?v=abc".data "en".data
      = get_transcript c10Env
        "https://www.youtube.com/watch?v=abc".data "hi".data ∧
    (get_transcript c10Env
      "https://www.youtube.com/watch?v=abc".data "en".data).result
      = Except.ok ⟨"hello there".data, "auto-detected".data⟩ := by
  have h := c10_audio_fallback_language_blind c10Env
    "https://www.youtube.com/watch?v=abc".data "en".data "hi".data
    (by decide) (by decide)
  exact ⟨h.1, by decide⟩

/-! ## Claim C5

The extraction block (app.py lines 224-229): short-form URLs are cut with
`url.split("youtu.be/")[1].split("?")[0]`, long-form URLs with
`url.split("v=")[1].split("&")[0]`, and URLs containing neither domain
marker raise `ValueError("Invalid YouTube URL format")`. A URL "of the
shape" `*youtu.be/<id>?*` (resp. `*youtube.com/watch?v=<id>&*`) is one that
decomposes around a unique occurrence of the marker with an id free of the
terminating separator, which the `cleanBeforeB`/`isInfixB` hypotheses below
express. -/

/-- **C5** (confirmed): (i) for URLs `a ++ "youtu.be/" ++ id ++ "?" ++ b`
(marker occurring only there, `id` free of `?`) the extractor returns
exactly `id`; (ii) for URLs
`a ++ "youtube.com/watch?" ++ "v=" ++ id ++ "&" ++ b` (not containing
`youtu.be`, `v=` occurring only there, `id` free of `&`) it returns exactly
`id`; (iii) for URLs containing neither domain marker it raises
`ValueError("Invalid YouTube URL format")`. -/
theorem c5_extractor_shapes :
    (∀ a vid b : Str, cleanBeforeB "youtu.be/".data a = true →
      isInfixB "youtu.be/".data (vid ++ "?".data ++ b) = false →
      cleanBeforeB "?".data vid = true →
      extract_video_id (a ++ "youtu.be/".data ++ vid ++ "?".data ++ b)
        = Except.ok vid) ∧
    (∀ a vid b : Str,
      isInfixB "youtu.be".data
        (a ++ "youtube.com/watch?".data ++ "v=".data ++ vid ++ "&".data ++ b)
        = false →
      cleanBeforeB "v=".data (a ++ "youtube.com/watch?".data) = true →
      isInfixB "v=".data (vid ++ "&".data ++ b) = false →
      cleanBeforeB "&".data vid = true →
      extract_video_id
        (a ++ "youtube.com/watch?".data ++ "v=".data ++ vid ++ "&".data ++ b)
        = Except.ok vid) ∧
    (∀ url : Str, isInfixB "youtu.be".data url = false →
      isInfixB "youtube.com".data url = false →
      extract_video_id url
        = Except.error (PyErr.valueError "Invalid YouTube URL format".data)) := by
  refine ⟨?_, ?_, ?_⟩
  · intro a vid b hca hni hcid
    have hyb : isInfixB "youtu.be".data
        (a ++ "youtu.be/".data ++ vid ++ "?".data ++ b) = true := by
      have hM : ("youtu.be/".data : Str) = "youtu.be".data ++ "/".data := by
        decide
      have hsh : a ++ "youtu.be/".data ++ vid ++ "?".data ++ b
          = a ++ "youtu.be".data
            ++ ("/".data ++ (vid ++ ("?".data ++ b))) := by
        rw [hM]; simp [List.append_assoc]
      rw [hsh]
      exact isInfixB_append _ a _
    have hurl : a ++ "youtu.be/".data ++ vid ++ "?".data ++ b
        = a ++ "youtu.be/".data ++ (vid ++ "?".data ++ b) := by
      simp [List.append_assoc]
    have hsplit1 : pySplit "youtu.be/".data
        (a ++ "youtu.be/".data ++ vid ++ "?".data ++ b)
        = [a, vid ++ "?".data ++ b] := by
      rw [hurl, pySplit_append "youtu.be/".data (by decide) a
        (vid ++ "?".data ++ b) hca, pySplit_of_not_infix _ _ hni]
    have hsplit2 : pySplit "?".data (vid ++ "?".data ++ b)
        = vid :: pySplit "?".data b :=
      pySplit_append "?".data (by decide) vid b hcid
    have he1 : pyIndex (pySplit "youtu.be/".data
        (a ++ "youtu.be/".data ++ vid ++ "?".data ++ b)) 1
        = Except.ok (vid ++ "?".data ++ b) := by
      rw [hsplit1]; rfl
    have he2 : pyIndex (pySplit "?".data (vid ++ "?".data ++ b)) 0
        = Except.ok vid := by
      rw [hsplit2]; simp [pyIndex]
    unfold extract_video_id
    rw [if_pos hyb, he1]
    exact he2
  · intro a vid b hnyb hca hni hcid
    have hycom : isInfixB "youtube.com".data
        (a ++ "youtube.com/watch?".data ++ "v=".data ++ vid ++ "&".data ++ b)
        = true := by
      have hW : ("youtube.com/watch?".data : Str)
          = "youtube.com".data ++ "/watch?".data := by decide
      have hsh : a ++ "youtube.com/watch?".data ++ "v=".data ++ vid
            ++ "&".data ++ b
          = a ++ "youtube.com".data
            ++ ("/watch?".data ++ ("v=".data ++ (vid ++ ("&".data ++ b)))) := by
        rw [hW]; simp [List.append_assoc]
      rw [hsh]
      exact isInfixB_append _ a _
    have hurl : a ++ "youtube.com/watch?".data ++ "v=".data ++ vid
          ++ "&".data ++ b
        = (a ++ "youtube.com/watch?".data) ++ "v=".data
          ++ (vid ++ "&".data ++ b) := by
      simp [List.append_assoc]
    have hsplit1 : pySplit "v=".data
        (a ++ "youtube.com/watch?".data ++ "v=".data ++ vid ++ "&".data ++ b)
        = [a ++ "youtube.com/watch?".data, vid ++ "&".data ++ b] := by
      rw [hurl, pySplit_append "v=".data (by decide)
        (a ++ "youtube.com/watch?".data) (vid ++ "&".data ++ b) hca,
        pySplit_of_not_infix _ _ hni]
    have hsplit2 : pySplit "&".data (vid ++ "&".data ++ b)
        = vid :: pySplit "&".data b :=
      pySplit_append "&".data (by decide) vid b hcid
    have he1 : pyIndex (pySplit "v=".data
        (a ++ "youtube.com/watch?".data ++ "v=".data ++ vid ++ "&".data ++ b)) 1
        = Except.ok (vid ++ "&".data ++ b) := by
      rw [hsplit1]; rfl
    have he2 : pyIndex (pySplit "&".data (vid ++ "&".data ++ b)) 0
        = Except.ok vid := by
      rw [hsplit2]; simp [pyIndex]
    unfold extract_video_id
    rw [hnyb, if_neg Bool.false_ne_true, if_pos hycom, he1]
    exact he2
  · intro url h1 h2
    simp [extract_video_id, h1, h2]

/-- Witness for C5 at concrete inputs: a short-form URL, a long-form URL,
and a marker-free URL. -/
theorem c5_witness :
    extract_video_id ("https://".data ++ "youtu.be/".data ++ "abc123".data
        ++ "?".data ++ "t=5".data) = Except.ok "abc123".data ∧
    extract_video_id ("https://www.".data ++ "youtube.com/watch?".data
        ++ "v=".data ++ "dQw4w9WgXcQ".data ++ "&".data ++ "t=1".data)
      = Except.ok "dQw4w9WgXcQ".data ∧
    extract_video_id "https://example.com/video".data
      = Except.error (PyErr.valueError "Invalid YouTube URL format".data) := by
  refine ⟨?_, ?_, ?_⟩
  · exact c5_extractor_shapes.1 "https://".data "abc123".data "t=5".data
      (by decide) (by decide) (by decide)
  · exact c5_extractor_shapes.2.1 "https://www.".data "dQw4w9WgXcQ".data
      "t=1".data (by decide) (by decide) (by decide) (by decide)
  · exact c5_extractor_shapes.2.2 "https://example.com/video".data
      (by decide) (by decide)

/-! ## Claim C6

The claim reads the long-form separator as "the `v=` parameter". The code
(app.py line 227) keys on the literal substring `"v="` instead, so a URL
with no `v` query parameter at all, but whose only parameter is named `av`,
slips through the split and yields the malformed identifier `2` — the claim
as stated is false. What does hold is the substring reading: when the
marker is present but the literal separator substring (`youtu.be/`, resp.
`v=`) is absent, the unguarded split leaves a single chunk, the subscript
`[1]` raises `IndexError`, and the dedicated handler at app.py lines 306-307
surfaces it as the explicit invalid-URL error — never a malformed identifier
and never an unhandled internal fault. -/

/-- **C6 counterexample**: `https://www.youtube.com/watch?av=2` contains the
long-domain marker and has no `v` query parameter (its only parameter is
named `av`), yet the extractor returns the malformed identifier `2` instead
of failing with the invalid-URL error. -/
theorem c6_counterexample :
    isInfixB "youtube.com".data "https://www.youtube.com/watch?av=2".data
      = true ∧
    extract_video_id "https://www.youtube.com/watch?av=2".data
      = Except.ok "2".data := by
  exact ⟨by decide, by decide⟩

/-- **C6 amended** (proved): for every URL containing the short-domain
marker but not the literal separator substring `youtu.be/`, and every URL
containing the long-domain marker (and not `youtu.be`) but not the literal
substring `v=`, the unguarded split raises `IndexError` and the enclosing
dedicated handler converts it to the explicit invalid-URL user error; no
identifier is produced and no internal fault escapes. -/
theorem c6_missing_separator_substring :
    (∀ url : Str, isInfixB "youtu.be".data url = true →
      isInfixB "youtu.be/".data url = false →
      extract_video_id url = Except.error PyErr.indexError ∧
      handled_extract url = Except.error
        "Invalid YouTube URL. Please enter a valid YouTube video URL.".data) ∧
    (∀ url : Str, isInfixB "youtu.be".data url = false →
      isInfixB "youtube.com".data url = true →
      isInfixB "v=".data url = false →
      extract_video_id url = Except.error PyErr.indexError ∧
      handled_extract url = Except.error
        "Invalid YouTube URL. Please enter a valid YouTube video URL.".data) := by
  constructor
  · intro url h1 h2
    have he : extract_video_id url = Except.error PyErr.indexError := by
      simp [extract_video_id, h1, pySplit_of_not_infix _ _ h2, pyIndex]
    exact ⟨he, by simp [handled_extract, he]⟩
  · intro url h1 h2 h3
    have he : extract_video_id url = Except.error PyErr.indexError := by
      simp [extract_video_id, h1, h2, pySplit_of_not_infix _ _ h3, pyIndex]
    exact ⟨he, by simp [handled_extract, he]⟩

/-- Witness for the amended C6 at concrete inputs: `https://youtu.be`
(marker, no slash) and `https://www.youtube.com/watch` (marker, no `v=`). -/
theorem c6_witness :
    extract_video_id "https://youtu.be".data
      = Except.error PyErr.indexError ∧
    handled_extract "https://www.youtube.com/watch".data
      = Except.error
        "Invalid YouTube URL. Please enter a valid YouTube video URL.".data := by
  exact ⟨(c6_missing_separator_substring.1 "https://youtu.be".data
      (by decide) (by decide)).1,
    (c6_missing_separator_substring.2 "https://www.youtube.com/watch".data
      (by decide) (by decide) (by decide)).2⟩

/-! ## Claim C7

The claimed invariant is that every successfully returned `TranscriptResult`
has non-empty text. The caption path joins the fetched segment texts with
`" ".join(...)` (app.py line 209), which is empty when the service returns a
track with no segments, and the audio path returns the Whisper output
verbatim — the code never checks non-emptiness, so the invariant depends on
the services and fails for an empty segment list. It does hold under the
natural proviso that every track (and translated track) fetches at least one
non-empty segment and that the speech-to-text output is non-empty. -/

/-- Joining with a non-empty separator is non-empty as soon as some chunk
is. -/
theorem pyJoin_ne_nil (sep : Str) (hsep : sep ≠ []) :
    ∀ xs : List Str, (∃ s ∈ xs, s ≠ []) → pyJoin sep xs ≠ [] := by
  intro xs hx
  match xs with
  | [] =>
    rcases hx with ⟨s, hs, _⟩
    cases hs
  | [x] =>
    rcases hx with ⟨s, hs, hne⟩
    rw [List.mem_singleton] at hs
    rw [hs] at hne
    simpa [pyJoin] using hne
  | x :: y :: t =>
    intro h
    simp only [pyJoin] at h
    have h1 := (List.append_eq_nil.mp h).1
    exact hsep (List.append_eq_nil.mp h1).2

/-- **C7 counterexample**: a caption service holding one manual English
track whose fetch returns no segments makes the resolver succeed with an
empty `text`, refuting the claimed non-emptiness invariant. -/
theorem c7_counterexample :
    (get_transcript
      ⟨[⟨"en".data, false, []⟩], false, [], fun t _ => t, true, [],
        "/tmp/c7".data, Except.ok "stt".data, false⟩
      "https://www.youtube.com/watch?v=abc".data "en".data).result
    = Except.ok ⟨[], "en".data⟩ := by decide

/-- **C7 amended** (proved): every successfully returned `TranscriptResult`
has non-empty text, provided every track the caption service can return (and
every translated track) fetches at least one non-empty segment, and the
speech-to-text output is non-empty. -/
theorem c7_nonempty_text_amended (env : Env) (url target_lang : Str)
    (r : TResult)
    (h1 : ∀ t ∈ env.tracks, ∃ s ∈ t.segments, s ≠ [])
    (h2 : ∀ t l, ∃ s ∈ (env.translateFn t l).segments, s ≠ [])
    (h3 : ∀ txt, env.transcribeRes = Except.ok txt → txt ≠ [])
    (hr : (get_transcript env url target_lang).result = Except.ok r) :
    r.text ≠ [] := by
  cases hv : pyIndex (pySplit "v=".data url) 1 with
  | error e => simp [get_transcript, hv] at hr
  | ok vid =>
    cases hl : env.listFails with
    | true => simp [get_transcript, hv, hl] at hr
    | false =>
      cases hm : find_transcript env.tracks false supportedLangs with
      | some t =>
        have htm := find_transcript_mem env.tracks false supportedLangs t hm
        by_cases heq : target_lang = t.language_code
        · simp [get_transcript, hv, hl, hm, resolveCaption, heq] at hr
          rw [← hr]
          exact pyJoin_ne_nil " ".data (by decide) t.segments (h1 t htm)
        · simp [get_transcript, hv, hl, hm, resolveCaption, heq] at hr
          rw [← hr]
          exact pyJoin_ne_nil " ".data (by decide) _ (h2 t target_lang)
      | none =>
        cases hg : find_transcript env.tracks true supportedLangs with
        | some t =>
          have htm := find_transcript_mem env.tracks true supportedLangs t hg
          by_cases heq : target_lang = t.language_code
          · simp [get_transcript, hv, hl, hm, hg, resolveCaption, heq] at hr
            rw [← hr]
            exact pyJoin_ne_nil " ".data (by decide) t.segments (h1 t htm)
          · simp [get_transcript, hv, hl, hm, hg, resolveCaption, heq] at hr
            rw [← hr]
            exact pyJoin_ne_nil " ".data (by decide) _ (h2 t target_lang)
        | none =>
          cases hd : env.downloadOk with
          | false =>
            simp [get_transcript, hv, hl, hm, hg, download_audio, hd] at hr
          | true =>
            cases ht : env.transcribeRes with
            | error m =>
              simp [get_transcript, hv, hl, hm, hg, download_audio, hd,
                transcribe_audio, ht] at hr
            | ok s =>
              simp [get_transcript, hv, hl, hm, hg, download_audio, hd,
                transcribe_audio, ht] at hr
              rw [← hr]
              exact h3 s ht

/-- The environment of the C7 witness: a manual English track with segments
`["Hello", "world"]`, a translation oracle always producing the single
segment `x`, and Whisper output `stt`. -/
def c7wEnv : Env :=
  ⟨[⟨"en".data, false, ["Hello".data, "world".data]⟩], false, [],
    fun _ l => ⟨l, false, ["x".data]⟩, true, [], "/tmp/c7w".data,
    Except.ok "stt".data, false⟩

/-- Witness for the amended C7 at a concrete input: the resolver succeeds
with text `Hello world`, which is non-empty. -/
theorem c7_witness :
    (get_transcript c7wEnv
      "https://www.youtube.com/watch?v=abc".data "en".data).result
      = Except.ok ⟨"Hello world".data, "en".data⟩ ∧
    ("Hello world".data : Str) ≠ [] := by
  constructor
  · decide
  · exact c7_nonempty_text_amended c7wEnv
      "https://www.youtube.com/watch?v=abc".data "en".data
      ⟨"Hello world".data, "en".data⟩
      (by decide)
      (fun t l => ⟨"x".data, List.mem_singleton_self _, by decide⟩)
      (by intro txt h; cases h; decide)
      (by decide)

/-! ## Claim C8

`get_cached_transcript` (app.py lines 48-50) is `get_transcript` under the
UI framework's `st.cache_data(ttl=3600)` memoization, modelled here by the
`Cache` store: within the window, a repeated (URL, language) key is served
from the store without consulting any backing service. -/

/-- A freshly inserted key is found by the cache lookup. -/
theorem cacheLookup_insert (c : Cache) (k : Str × Str) (v : TResult) :
    cacheLookup ⟨(k, v) :: c.entries⟩ k = some v := by
  simp [cacheLookup, List.find?]

/-- **C8** (confirmed, against the spec-modelled memoization): if a call at
(URL, language) returned a successful result and the cache `c2`, then a
second call with the same key against `c2` returns the bit-identical result,
makes no call to any backing service (empty trace), and leaves the cache
unchanged. -/
theorem c8_memoized_idempotent (env : Env) (c : Cache) (url target_lang : Str)
    (v : TResult) (tr : List Ev) (c2 : Cache)
    (h : get_cached_transcript env c url target_lang = (Except.ok v, tr, c2)) :
    get_cached_transcript env c2 url target_lang = (Except.ok v, [], c2) := by
  cases hl : cacheLookup c (url, target_lang) with
  | some w =>
    simp only [get_cached_transcript, hl] at h
    simp only [Prod.mk.injEq, Except.ok.injEq] at h
    obtain ⟨hv, _, hc⟩ := h
    subst hv
    subst hc
    simp only [get_cached_transcript, hl]
  | none =>
    simp only [get_cached_transcript, hl] at h
    cases hres : (get_transcript env url target_lang).result with
    | error e => simp [hres] at h
    | ok w =>
      simp only [hres] at h
      simp only [Prod.mk.injEq, Except.ok.injEq] at h
      obtain ⟨hv, _, hc⟩ := h
      subst hv
      subst hc
      simp only [get_cached_transcript, cacheLookup_insert]

/-- The caption service of the C8 witness. -/
def c8Env : Env :=
  ⟨[⟨"en".data, false, ["Hello".data, "world".data]⟩], false, [],
    fun t _ => t, true, [], "/tmp/c8".data, Except.ok "stt".data, false⟩

/-- The URL of the C8 witness. -/
def c8Url : Str := "https://www.youtube.com/watch?v=abc".data

/-- Witness for C8 at a concrete input: after a first call from an empty
cache, the second call returns the identical result with an empty trace and
an unchanged cache. -/
theorem c8_witness :
    get_cached_transcript c8Env
      ⟨[((c8Url, "en".data), ⟨"Hello world".data, "en".data⟩)]⟩
      c8Url "en".data
    = (Except.ok ⟨"Hello world".data, "en".data⟩, [],
        ⟨[((c8Url, "en".data), ⟨"Hello world".data, "en".data⟩)]⟩) := by
  exact c8_memoized_idempotent c8Env ⟨[]⟩ c8Url "en".data
    ⟨"Hello world".data, "en".data⟩ [Ev.listTranscripts "abc".data]
    ⟨[((c8Url, "en".data), ⟨"Hello world".data, "en".data⟩)]⟩ (by decide)

/-! ## Claim C9

The Generate Summary handler requests the transcript with the literal
language `'en'` (app.py line 270) no matter what the selector holds, while
the Get Transcript handler passes the selector's value (line 299). -/

/-- **C9** (confirmed): the Generate Summary fetch equals a fetch with
target language `en` and is unchanged under any change of the selected
language; the Get Transcript fetch passes the selected language through. -/
theorem c9_summary_always_english (env : Env) (c : Cache)
    (url sel sel2 : Str) :
    summary_button_fetch env c url sel
      = get_cached_transcript env c url "en".data ∧
    summary_button_fetch env c url sel = summary_button_fetch env c url sel2 ∧
    transcript_button_fetch env c url sel
      = get_cached_transcript env c url sel :=
  ⟨rfl, rfl, rfl⟩
